import Mathlib

/-!
Verification of the process-supervision and event-bridging layer of the
gmb-scraper-api repository: the Event Bridge (`ScraperService.stream`), the
Aggregating Adapter (`ScraperService.scrape`), the Streaming Adapter
(`GET /scrape/stream` route), the synchronous route (`POST /scrape`), the
Webhook Adapter (`POST /scrape/webhook` background task) and the Job
Registry (`jobStore`), shallowly embedded from `src/services/scraper.ts`
and `src/routes/scrape.ts`.

Modelling conventions:
* JSON numbers carried by events and stats are modelled as `Int`; no code
  path under verification performs arithmetic on them.
* A JavaScript value that may be absent (`undefined`/`null`) is modelled as
  an `Option`; JavaScript truthiness of strings (the empty string is falsy)
  is modelled explicitly where the source relies on it.
* Wall-clock timestamps (`startedAt`, `completedAt`, event `timestamp`
  strings) are omitted from the records: no verified property reads them.
-/

namespace GmbScraper

/-- BusinessRecord, from `BusinessSchema` in `src/types/index.ts`. -/
structure Business where
  name : String
  place_id : String
  address : String
  phone : String
  phone_clean : String
  email : String
  website : String
  rating : Option Int
  review_count : Int
  latitude : Option Int
  longitude : Option Int
  category : String
  google_maps_url : String
  deriving DecidableEq, Repr

/-- Stats, from `StatsSchema` in `src/types/index.ts`. -/
structure Stats where
  total : Int
  with_phone : Int
  with_email : Int
  with_website : Int
  with_address : Int
  with_category : Int
  with_rating : Int
  filtered_out : Int
  duration_seconds : Int
  deriving DecidableEq, Repr

/-- ScrapeQuery, from `ScrapeQuerySchema` in `src/types/index.ts`:
activity, city, grid_size. -/
structure ScrapeQuery where
  activity : String
  city : String
  grid_size : Int
  deriving DecidableEq, Repr

/-- One parsed JSON line of worker output (`SSEEvent` in
`src/types/index.ts`).  The consumer dispatches on the `type` string; the
payload fields it reads may be absent in a malformed-but-parsable line, so
they are carried as `Option`s:
* `business` carries `data` (read only when truthy),
* `complete` carries `stats` (read only when truthy) and an optional
  declared `businesses` list,
* `error` carries `message`.
`other tag` stands for any parsed JSON value whose `type` is none of the
recognised tags (including `start` and `progress` payloads, which no
verified code path inspects, and non-object JSON values). -/
inductive Event where
  | business (data : Option Business)
  | complete (stats : Option Stats) (businesses : Option (List Business))
  | error (message : String)
  | other (tag : String)
  deriving DecidableEq, Repr

/-- Truthiness of the `string | null` variable `error` in
`ScraperService.scrape`: `null` and the empty string are falsy. -/
def jsTruthyStr : Option String → Bool
  | none => false
  | some s => s != ""

/-- ScraperResult, from `src/services/scraper.ts` (`stats` and `error` are
optional fields there). -/
structure ScraperResult where
  success : Bool
  query : ScrapeQuery
  stats : Option Stats
  businesses : List Business
  error : Option String
  deriving DecidableEq, Repr

/-- Accumulator of the `for await` loop body in `ScraperService.scrape`
(`src/services/scraper.ts`, lines 147-165): the `businesses` array, the
last truthy `stats`, and the `error` variable. -/
structure ScrapeAcc where
  businesses : List Business
  stats : Option Stats
  error : Option String
  deriving DecidableEq, Repr

/-- One iteration of the loop in `ScraperService.scrape`: a `business`
event with truthy `data` is appended, a `complete` event with truthy
`stats` overwrites `stats`, an `error` event overwrites `error` with its
`message`. -/
def scrapeStep (acc : ScrapeAcc) (e : Event) : ScrapeAcc :=
  let acc1 :=
    match e with
    | .business (some b) => { acc with businesses := acc.businesses ++ [b] }
    | _ => acc
  let acc2 :=
    match e with
    | .complete (some s) _ => { acc1 with stats := some s }
    | _ => acc1
  match e with
  | .error m => { acc2 with error := some m }
  | _ => acc2

/-- ScraperService.scrape (`src/services/scraper.ts`, lines 144-179) as a
function of the worker's event sequence.  The final result computes
`success: !error && businesses.length > 0` and `error: error || undefined`
with JavaScript truthiness, and echoes the query. -/
def scrape (activity city : String) (gridSize : Int) (events : List Event) :
    ScraperResult :=
  let acc := events.foldl scrapeStep ⟨[], none, none⟩
  { success := !jsTruthyStr acc.error && !acc.businesses.isEmpty
    query := ⟨activity, city, gridSize⟩
    stats := acc.stats
    businesses := acc.businesses
    error := if jsTruthyStr acc.error then acc.error else none }

/-- One line of worker standard output fed to the Event Bridge: either it
parses (`JSON.parse` succeeds) to an event, or it is malformed. -/
inductive RawLine where
  | valid (e : Event)
  | malformed (s : String)
  deriving DecidableEq, Repr

/-- Outcome of the `try { JSON.parse(line) } catch` in the `rl.on` handler
of `ScraperService.stream` (`src/services/scraper.ts`, lines 76-97). -/
def parseLine : RawLine → Option Event
  | .valid e => some e
  | .malformed _ => none

/-- State of the Event Bridge: the fallback caches `this.businesses` and
`this.stats`, and the ordered sequence of events delivered to the
consumer (queue handoff collapsed to arrival order). -/
structure BridgeState where
  businesses : List Business
  stats : Option Stats
  output : List Event
  deriving DecidableEq, Repr

/-- Processing of one stdout line by the `rl.on` handler in
`ScraperService.stream`: a parsable line updates the caches and is
enqueued for the consumer; a malformed line is dropped. -/
def bridgeStep (st : BridgeState) (l : RawLine) : BridgeState :=
  match parseLine l with
  | none => st
  | some e =>
    { businesses :=
        match e with
        | .business (some b) => st.businesses ++ [b]
        | _ => st.businesses
      stats :=
        match e with
        | .complete (some s) _ => some s
        | _ => st.stats
      output := st.output ++ [e] }

/-- ScraperService.stream (`src/services/scraper.ts`, lines 41-139) as a
function of the worker's stdout lines: the net effect of the
producer/consumer handoff is that every parsable line is yielded in
arrival order and the caches accumulate. -/
def stream (lines : List RawLine) : BridgeState :=
  lines.foldl bridgeStep ⟨[], none, []⟩

/-- Payload of a `business` event when truthy, as read by the adapters. -/
def businessData : Event → Option Business
  | .business (some b) => some b
  | _ => none

/-- Test used to state claims about error events. -/
def isErrorEvent : Event → Bool
  | .error _ => true
  | _ => false

/-- Message of an `error` event, if the event is one. -/
def errMsg : Event → Option String
  | .error m => some m
  | _ => none

/-- Message of the last `error` event of a sequence, if any: the value
held by the `error` variable of `ScraperService.scrape` after the loop. -/
def lastErrorMsg (events : List Event) : Option String :=
  (events.filterMap errMsg).getLast?

/-- Job status stored in `jobStore` (`src/routes/scrape.ts`, line 21). -/
inductive JobStatus where
  | running
  | completed
  | error
  deriving DecidableEq, Repr

/-- ScrapeResult, from `src/types/index.ts`: the stored result of a
completed job.  `stats` is `Option` because the routes store
`result.stats!` / `completeEvent.stats`, which may be absent at runtime. -/
structure ScrapeResult where
  job_id : String
  query : ScrapeQuery
  stats : Option Stats
  businesses : List Business
  deriving DecidableEq, Repr

/-- One `jobStore` entry (`src/routes/scrape.ts`, lines 20-26), timestamps
omitted. -/
structure JobRecord where
  status : JobStatus
  result : Option ScrapeResult
  error : Option String
  deriving DecidableEq, Repr

/-- Fresh registry record of a just-accepted job. -/
def runningRecord : JobRecord :=
  { status := .running, result := none, error := none }

/-- JavaScript `completeEvent.businesses || businesses` on line 124 of
`src/routes/scrape.ts`: any present array (even empty) is truthy, so the
fallback applies only when the declared list is absent. -/
def jsOrList (declared : Option (List Business)) (fallback : List Business) :
    List Business :=
  match declared with
  | some l => l
  | none => fallback

/-- State of the `GET /scrape/stream` handler body (`src/routes/scrape.ts`,
lines 72-157): the `isComplete` flag, whether `heartbeatInterval` is still
scheduled, the `businesses` accumulator, the registry record of this job,
the count of `ping` frames successfully written, the worker-event frames
successfully written, and the number of terminal `jobStore.set` calls. -/
structure StreamState where
  isComplete : Bool
  hbActive : Bool
  businesses : List Business
  record : JobRecord
  pings : Nat
  frames : List Event
  sets : Nat
  deriving DecidableEq, Repr

/-- One step of the streaming handler: either the `for await` loop receives
the next bridge event, or the heartbeat interval fires.  `writeOk` tells
whether the corresponding `streamWriter.write` succeeds; a failed write is
caught by `writeSSE` which sets `isComplete` (lines 78-85). -/
inductive StreamStep where
  | ev (e : Event) (writeOk : Bool)
  | tick (writeOk : Bool)
  deriving DecidableEq, Repr

/-- Heartbeat callback (`src/routes/scrape.ts`, lines 89-95): if the
interval is still scheduled, a non-complete stream gets a `ping` write
(whose failure sets `isComplete`), and a complete stream clears the
interval instead. -/
def tickStep (writeOk : Bool) (s : StreamState) : StreamState :=
  if s.hbActive then
    if !s.isComplete then
      if writeOk then { s with pings := s.pings + 1 }
      else { s with isComplete := true }
    else { s with hbActive := false }
  else s

/-- Body of the `for await` loop (`src/routes/scrape.ts`, lines 101-141)
for one bridge event, parametrised by the job id and validated query.  When
`isComplete` already holds the iteration breaks at once; otherwise the
event's business payload is accumulated, the event is written as one SSE
frame, and a terminal event sets `isComplete`, clears the interval and
performs the terminal `jobStore.set`. -/
def evStep (jid : String) (q : ScrapeQuery) (e : Event) (writeOk : Bool)
    (s : StreamState) : StreamState :=
  if s.isComplete then s
  else
    let s1 :=
      match e with
      | .business (some b) => { s with businesses := s.businesses ++ [b] }
      | _ => s
    let s2 :=
      if writeOk then { s1 with frames := s1.frames ++ [e] }
      else { s1 with isComplete := true }
    match e with
    | .complete stats declared =>
      { s2 with
        isComplete := true
        hbActive := false
        sets := s2.sets + 1
        record :=
          { status := .completed
            result := some
              { job_id := jid
                query := q
                stats := stats
                businesses := jsOrList declared s2.businesses }
            error := none } }
    | .error m =>
      { s2 with
        isComplete := true
        hbActive := false
        sets := s2.sets + 1
        record := { status := .error, result := none, error := some m } }
    | _ => s2

/-- Dispatch of one interleaving step of the streaming handler. -/
def streamStep (jid : String) (q : ScrapeQuery) (s : StreamState)
    (st : StreamStep) : StreamState :=
  match st with
  | .ev e writeOk => evStep jid q e writeOk s
  | .tick writeOk => tickStep writeOk s

/-- Run of the streaming handler from a given state over an interleaving of
bridge events and heartbeat ticks. -/
def streamRunFrom (jid : String) (q : ScrapeQuery) (s : StreamState)
    (steps : List StreamStep) : StreamState :=
  steps.foldl (streamStep jid q) s

/-- Handler state after the registry entry is created and the initial
`job` frame is written (`src/routes/scrape.ts`, lines 60-63 and 98): a
failed initial write already sets `isComplete`. -/
def streamInit (jobWriteOk : Bool) : StreamState :=
  { isComplete := !jobWriteOk
    hbActive := true
    businesses := []
    record := runningRecord
    pings := 0
    frames := []
    sets := 0 }

/-- Full run of the streaming handler. -/
def streamRun (jid : String) (q : ScrapeQuery) (jobWriteOk : Bool)
    (steps : List StreamStep) : StreamState :=
  streamRunFrom jid q (streamInit jobWriteOk) steps

/-- Response of `POST /scrape` (`src/routes/scrape.ts`, lines 214-237),
restricted to the fields the claims mention. -/
structure PostResponse where
  httpStatus : Nat
  success : Bool
  error : Option String
  businesses : Option (List Business)
  total_businesses : Option Nat
  deriving DecidableEq, Repr

/-- Continuation of the `POST /scrape` handler after `scraper.scrape`
settles (`src/routes/scrape.ts`, lines 193-238).  `outcome` is the settled
promise: `.ok result` when it resolves, `.error m` when it rejects with
message `m`.  On resolution the handler stores a `completed` record and
answers 200 with `success: true` without ever reading `result.success`;
only a rejection produces the 500 `{error}` and an `error` record. -/
def postScrapeAfter (jid : String) (q : ScrapeQuery)
    (outcome : Except String ScraperResult) : PostResponse × JobRecord :=
  match outcome with
  | .ok result =>
    let sr : ScrapeResult :=
      { job_id := jid
        query := q
        stats := result.stats
        businesses := result.businesses }
    ({ httpStatus := 200
       success := true
       error := none
       businesses := some result.businesses
       total_businesses := some result.businesses.length },
     { status := .completed, result := some sr, error := none })
  | .error m =>
    ({ httpStatus := 500
       success := false
       error := some m
       businesses := none
       total_businesses := none },
     { status := .error, result := none, error := some m })

/-- POST /scrape handler as a function of the worker's event sequence.
`ScraperService.scrape` catches every exception of its own loop and
resolves with the error stored in the result value, so the promise the
route awaits always resolves: the handler continuation is applied to
`.ok`. -/
def postScrapeHandler (jid : String) (q : ScrapeQuery) (events : List Event) :
    PostResponse × JobRecord :=
  postScrapeAfter jid q (.ok (scrape q.activity q.city q.grid_size events))

/-- Outcome of one outbound `fetch` in the webhook background task: `ok`
covers any fulfilled fetch (including a non-2xx response, which `fetch`
does not reject), `fail m` a rejected fetch (network error) with message
`m`. -/
inductive FetchOutcome where
  | ok
  | fail (msg : String)
  deriving DecidableEq, Repr

/-- One outbound callback body (`src/routes/scrape.ts`, lines 300-310 and
327-334), restricted to the fields the claims mention. -/
structure WebhookPayload where
  success : Bool
  job_id : String
  error : Option String
  businesses : Option (List Business)
  deriving DecidableEq, Repr

/-- Observable trace of the webhook background task: final registry
record, number of terminal `jobStore.set` calls, the callback bodies
attempted in order, and whether a delivery failure ended in the
log-only `catch` (line 336). -/
structure WebhookTrace where
  record : JobRecord
  sets : Nat
  attempts : List WebhookPayload
  loggedOnly : Bool
  deriving DecidableEq, Repr

/-- Webhook background task (`src/routes/scrape.ts`, lines 273-340) after
`scraper.scrape` resolved with `result` (it always resolves, see
`postScrapeHandler`).  The task stores a `completed` record, then awaits
the success callback *inside the same `try`*: a rejected delivery falls
into the `catch`, which overwrites the record with an `error` record
carrying the fetch rejection message and attempts the failure callback,
whose own rejection is only logged. -/
def webhookTask (jid : String) (q : ScrapeQuery) (result : ScraperResult)
    (deliver1 deliver2 : FetchOutcome) : WebhookTrace :=
  let sr : ScrapeResult :=
    { job_id := jid
      query := q
      stats := result.stats
      businesses := result.businesses }
  let completedRec : JobRecord :=
    { status := .completed, result := some sr, error := none }
  let successPayload : WebhookPayload :=
    { success := true
      job_id := jid
      error := none
      businesses := some result.businesses }
  match deliver1 with
  | .ok =>
    { record := completedRec
      sets := 1
      attempts := [successPayload]
      loggedOnly := false }
  | .fail m =>
    let errRec : JobRecord :=
      { status := .error, result := none, error := some m }
    let failPayload : WebhookPayload :=
      { success := false, job_id := jid, error := some m, businesses := none }
    { record := errRec
      sets := 2
      attempts := [successPayload, failPayload]
      loggedOnly :=
        match deliver2 with
        | .ok => false
        | .fail _ => true }

/-- Webhook background task as a function of the worker's event sequence
and the two possible delivery outcomes. -/
def webhookRun (jid : String) (q : ScrapeQuery) (events : List Event)
    (deliver1 deliver2 : FetchOutcome) : WebhookTrace :=
  webhookTask jid q (scrape q.activity q.city q.grid_size events)
    deliver1 deliver2

/-- Raw request parameters before validation: each field may be absent.
`grid_size` is taken after `z.coerce.number()` succeeded (the claims range
over integer values). -/
structure RawQuery where
  activity : Option String
  city : Option String
  grid_size : Option Int
  deriving DecidableEq, Repr

/-- The `grid_size` branch of `ScrapeQuerySchema`
(`src/types/index.ts`, line 211): `z.coerce.number().int().min(1).max(55)
.default(4)` — an absent field defaults to 4, a present integer passes
iff it lies in the inclusive range 1..55. -/
def zGridSize : Option Int → Option Int
  | none => some 4
  | some n => if 1 ≤ n ∧ n ≤ 55 then some n else none

/-- ScrapeQuerySchema.safeParse (`src/types/index.ts`, lines 208-212):
both strings must be present with length at least 2 and `grid_size` must
pass `zGridSize`. -/
def safeParseQuery (r : RawQuery) : Option ScrapeQuery :=
  match r.activity, r.city with
  | some a, some c =>
    if 2 ≤ a.length ∧ 2 ≤ c.length then
      match zGridSize r.grid_size with
      | some g => some ⟨a, c, g⟩
      | none => none
    else none
  | _, _ => none

/-- Outcome of the validation gate at the top of each scrape route
(`src/routes/scrape.ts`, lines 42-58, 167-181, 248-263): a failed parse
returns the 400 response before any job is created or worker spawned; a
successful parse proceeds to spawn the worker with the parsed query. -/
inductive RouteOutcome where
  | badRequest
  | spawned (q : ScrapeQuery)
  deriving DecidableEq, Repr

/-- Validation gate of the scrape routes. -/
def routeGate (r : RawQuery) : RouteOutcome :=
  match safeParseQuery r with
  | none => .badRequest
  | some q => .spawned q

/-- Rewrites the declared `businesses` list of a `complete` event, leaving
every other event unchanged: used to state that the Aggregating Adapter is
insensitive to that field. -/
def setCompleteBusinesses (f : Option (List Business) → Option (List Business)) :
    Event → Event
  | .complete s bs => .complete s (f bs)
  | e => e

/-- Terminal events of the streaming route: `complete` and `error`. -/
def isTerminal : Event → Bool
  | .complete _ _ => true
  | .error _ => true
  | _ => false

/-- Number of heartbeat firings in an interleaving; the interval has a
fixed one-second period, so an interleaving spanning `k` seconds has at
most `k` ticks. -/
def countTicks (steps : List StreamStep) : Nat :=
  steps.countP fun st =>
    match st with
    | .tick _ => true
    | _ => false

/-- Concrete business record used in witnesses and counterexamples. -/
def bizA : Business :=
  ⟨"Alpha", "pid-a", "1 rue A", "0101", "0101", "a@x", "ax", none, 3,
    none, none, "restaurant", "maps-a"⟩

/-- Second concrete business record. -/
def bizB : Business :=
  ⟨"Beta", "pid-b", "2 rue B", "0202", "0202", "b@x", "bx", some 4, 5,
    some 1, some 2, "restaurant", "maps-b"⟩

/-- Concrete stats record used in witnesses and counterexamples. -/
def statsAB : Stats := ⟨2, 2, 2, 2, 2, 2, 1, 0, 10⟩

/-- Concrete validated query used in witnesses and counterexamples. -/
def queryRP : ScrapeQuery := ⟨"restaurant", "paris", 4⟩

/-- Event sequence of a successful scrape: one business, then a `complete`
event without a declared list. -/
def eventsOk : List Event :=
  [Event.business (some bizA), Event.complete (some statsAB) none]

/-! Helper lemmas about the Event Bridge and the Aggregating Adapter. -/

theorem foldl_bridgeStep_output (lines : List RawLine) :
    ∀ st : BridgeState,
      (List.foldl bridgeStep st lines).output
        = st.output ++ lines.filterMap parseLine := by
  induction lines with
  | nil => intro st; simp
  | cons l t ih =>
    intro st
    cases hl : parseLine l with
    | none => simp [List.foldl_cons, bridgeStep, hl, ih, List.filterMap_cons]
    | some e => simp [List.foldl_cons, bridgeStep, hl, ih, List.filterMap_cons]

theorem scrapeStep_businesses (acc : ScrapeAcc) (e : Event) :
    (scrapeStep acc e).businesses = acc.businesses ++ (businessData e).toList := by
  cases e with
  | business d => cases d <;> simp [scrapeStep, businessData]
  | complete s bs => cases s <;> simp [scrapeStep, businessData]
  | error m => simp [scrapeStep, businessData]
  | other t => simp [scrapeStep, businessData]

theorem scrapeStep_error (acc : ScrapeAcc) (e : Event) :
    (scrapeStep acc e).error = (errMsg e).or acc.error := by
  cases e with
  | business d => cases d <;> simp [scrapeStep, errMsg]
  | complete s bs => cases s <;> simp [scrapeStep, errMsg]
  | error m => simp [scrapeStep, errMsg]
  | other t => simp [scrapeStep, errMsg]

theorem foldl_scrapeStep_businesses (events : List Event) :
    ∀ acc : ScrapeAcc,
      (List.foldl scrapeStep acc events).businesses
        = acc.businesses ++ events.filterMap businessData := by
  induction events with
  | nil => intro acc; simp
  | cons e t ih =>
    intro acc
    rw [List.foldl_cons, ih, scrapeStep_businesses]
    cases hb : businessData e <;> simp [List.filterMap_cons, hb]

theorem getLast?_cons_or {α : Type} (l : List α) :
    ∀ (m : α) (d : Option α),
      ((m :: l).getLast?).or d = (l.getLast?).or (some m) := by
  induction l with
  | nil => intro m d; rfl
  | cons b l ih =>
    intro m d
    have h1 : ((m :: b :: l).getLast?) = ((b :: l).getLast?) := rfl
    rw [h1, ih b d, ih b (some m)]

theorem foldl_scrapeStep_error (events : List Event) :
    ∀ acc : ScrapeAcc,
      (List.foldl scrapeStep acc events).error
        = ((events.filterMap errMsg).getLast?).or acc.error := by
  induction events with
  | nil => intro acc; simp
  | cons e t ih =>
    intro acc
    rw [List.foldl_cons, ih, scrapeStep_error]
    cases he : errMsg e with
    | none => simp [List.filterMap_cons, he]
    | some m =>
      have h1 : (some m).or acc.error = some m := rfl
      simp only [List.filterMap_cons, he, h1]
      rw [getLast?_cons_or]

theorem scrape_businesses_eq (a c : String) (g : Int) (events : List Event) :
    (scrape a c g events).businesses = events.filterMap businessData := by
  simp [scrape, foldl_scrapeStep_businesses]

theorem scrape_error_eq (a c : String) (g : Int) (events : List Event) :
    (scrape a c g events).error
      = if jsTruthyStr (lastErrorMsg events) then lastErrorMsg events
        else none := by
  simp [scrape, lastErrorMsg, foldl_scrapeStep_error, Option.or_none]

theorem scrape_success_eq (a c : String) (g : Int) (events : List Event) :
    (scrape a c g events).success
      = (!jsTruthyStr (lastErrorMsg events)
          && !(events.filterMap businessData).isEmpty) := by
  simp [scrape, lastErrorMsg, foldl_scrapeStep_error,
    foldl_scrapeStep_businesses, Option.or_none]

theorem jsTruthyStr_eq_false (o : Option String) :
    jsTruthyStr o = false ↔ (o = none ∨ o = some "") := by
  cases o with
  | none => simp [jsTruthyStr]
  | some s => simp [jsTruthyStr]

/-! Claim theorems about the Event Bridge and the Aggregating Adapter. -/

/-- C4: for every sequence of stdout lines fed to the Event Bridge, the
sequence of events yielded by `ScraperService.stream` equals, in order,
exactly the JSON-parsable lines; lines that fail to parse are dropped
without appearing in the output, without ending the sequence, and without
reordering the surrounding valid events. -/
theorem bridge_output_eq_filterMap (lines : List RawLine) :
    (stream lines).output = lines.filterMap parseLine := by
  have h := foldl_bridgeStep_output lines ⟨[], none, []⟩
  simpa [stream] using h

/-- C6: aggregating `[business(A), business(B), complete(stats, [A,B])]`
yields the business list `[A,B]` in order, and aggregating
`[business(A), complete(stats, [])]` yields `[A]`. -/
theorem scrape_business_list_concrete :
    (scrape "restaurant" "paris" 4
      [Event.business (some bizA), Event.business (some bizB),
        Event.complete (some statsAB) (some [bizA, bizB])]).businesses
      = [bizA, bizB]
    ∧ (scrape "restaurant" "paris" 4
        [Event.business (some bizA),
          Event.complete (some statsAB) (some [])]).businesses
      = [bizA] :=
  ⟨rfl, rfl⟩

/-- C9: the Aggregating Adapter never uses the `complete` event's declared
`businesses` field: the business list of `ScraperService.scrape`'s result
is exactly the in-order concatenation of the `business` events' payloads,
and rewriting the declared list arbitrarily leaves the result's list
unchanged. -/
theorem scrape_ignores_declared_businesses (a c : String) (g : Int)
    (events : List Event) :
    (scrape a c g events).businesses = events.filterMap businessData
    ∧ ∀ f : Option (List Business) → Option (List Business),
        (scrape a c g (events.map (setCompleteBusinesses f))).businesses
          = (scrape a c g events).businesses := by
  constructor
  · exact scrape_businesses_eq a c g events
  · intro f
    rw [scrape_businesses_eq, scrape_businesses_eq, List.filterMap_map]
    congr 1
    funext e
    cases e <;> rfl

/-- C5 counterexample: the event sequence `[business(A), error("")]`
contains an error event, yet `ScraperService.scrape` reports
`success = true`, because `success: !error && businesses.length > 0`
treats the empty error message as falsy. -/
theorem scrape_empty_error_message_cex :
    (scrape "restaurant" "paris" 4
      [Event.business (some bizA), Event.error ""]).success = true
    ∧ ([Event.business (some bizA), Event.error ""].any isErrorEvent)
      = true :=
  ⟨rfl, rfl⟩

/-- C5 (amended): the result of `ScraperService.scrape` has
`success = true` if and only if at least one business event carried a
payload and the final error value is falsy — no error event occurred, or
the last error event's message was the empty string.  In particular a
sequence with zero business payloads yields `success = false`, and the
sequence `[error("boom")]` yields `success = false` with
`error = "boom"` and an empty business list. -/
theorem scrape_success_iff (a c : String) (g : Int) (events : List Event) :
    ((scrape a c g events).success = true
      ↔ ((lastErrorMsg events = none ∨ lastErrorMsg events = some "")
          ∧ events.filterMap businessData ≠ []))
    ∧ (scrape a c g [Event.error "boom"]).success = false
    ∧ (scrape a c g [Event.error "boom"]).error = some "boom"
    ∧ (scrape a c g [Event.error "boom"]).businesses = [] := by
  refine ⟨?_, rfl, rfl, rfl⟩
  rw [scrape_success_eq]
  rw [Bool.and_eq_true, Bool.not_eq_true', Bool.not_eq_true']
  rw [jsTruthyStr_eq_false]
  constructor
  · rintro ⟨h1, h2⟩
    exact ⟨h1, by simpa using h2⟩
  · rintro ⟨h1, h2⟩
    exact ⟨h1, by simpa using h2⟩

/-! Helper lemmas about the streaming handler state machine. -/

theorem evStep_of_complete (jid : String) (q : ScrapeQuery) (e : Event)
    (ok : Bool) (s : StreamState) (h : s.isComplete = true) :
    evStep jid q e ok s = s := by
  simp [evStep, h]

theorem tickStep_of_complete (ok : Bool) (s : StreamState)
    (h : s.isComplete = true) :
    tickStep ok s = s ∨ tickStep ok s = { s with hbActive := false } := by
  by_cases hb : s.hbActive <;> simp [tickStep, h, hb]

theorem streamStep_frozen (jid : String) (q : ScrapeQuery) (s : StreamState)
    (st : StreamStep) (h : s.isComplete = true) :
    (streamStep jid q s st).isComplete = true
    ∧ (streamStep jid q s st).record = s.record
    ∧ (streamStep jid q s st).pings = s.pings
    ∧ (streamStep jid q s st).frames = s.frames
    ∧ (streamStep jid q s st).sets = s.sets := by
  cases st with
  | ev e ok => rw [streamStep, evStep_of_complete jid q e ok s h]; exact ⟨h, rfl, rfl, rfl, rfl⟩
  | tick ok =>
    rcases tickStep_of_complete ok s h with ht | ht <;>
      rw [streamStep, ht] <;> exact ⟨h, rfl, rfl, rfl, rfl⟩

theorem streamRunFrom_frozen (jid : String) (q : ScrapeQuery)
    (steps : List StreamStep) :
    ∀ s : StreamState, s.isComplete = true →
      (streamRunFrom jid q s steps).isComplete = true
      ∧ (streamRunFrom jid q s steps).record = s.record
      ∧ (streamRunFrom jid q s steps).pings = s.pings
      ∧ (streamRunFrom jid q s steps).frames = s.frames
      ∧ (streamRunFrom jid q s steps).sets = s.sets := by
  induction steps with
  | nil => intro s h; exact ⟨h, rfl, rfl, rfl, rfl⟩
  | cons st t ih =>
    intro s h
    obtain ⟨h1, h2, h3, h4, h5⟩ := streamStep_frozen jid q s st h
    obtain ⟨g1, g2, g3, g4, g5⟩ := ih (streamStep jid q s st) h1
    have hfold : streamRunFrom jid q s (st :: t)
        = streamRunFrom jid q (streamStep jid q s st) t := rfl
    rw [hfold]
    exact ⟨g1, g2.trans h2, g3.trans h3, g4.trans h4, g5.trans h5⟩

theorem evStep_pings (jid : String) (q : ScrapeQuery) (e : Event) (ok : Bool)
    (s : StreamState) : (evStep jid q e ok s).pings = s.pings := by
  by_cases h : s.isComplete
  · rw [evStep_of_complete jid q e ok s h]
  · cases e with
    | business d => cases d <;> cases ok <;> simp [evStep, h]
    | complete st bs => cases ok <;> simp [evStep, h]
    | error m => cases ok <;> simp [evStep, h]
    | other t => cases ok <;> simp [evStep, h]

theorem evStep_sets (jid : String) (q : ScrapeQuery) (e : Event) (ok : Bool)
    (s : StreamState) (h : s.isComplete = false) :
    (isTerminal e = true
        ∧ (evStep jid q e ok s).sets = s.sets + 1
        ∧ (evStep jid q e ok s).isComplete = true
        ∧ (evStep jid q e ok s).hbActive = false)
    ∨ (isTerminal e = false
        ∧ (evStep jid q e ok s).sets = s.sets
        ∧ (evStep jid q e ok s).record = s.record) := by
  cases e with
  | business d =>
    refine Or.inr ⟨rfl, ?_, ?_⟩ <;> cases d <;> cases ok <;> simp [evStep, h]
  | complete st bs =>
    refine Or.inl ⟨rfl, ?_, ?_, ?_⟩ <;> cases ok <;> simp [evStep, h]
  | error m =>
    refine Or.inl ⟨rfl, ?_, ?_, ?_⟩ <;> cases ok <;> simp [evStep, h]
  | other t =>
    refine Or.inr ⟨rfl, ?_, ?_⟩ <;> cases ok <;> simp [evStep, h]

theorem tickStep_sets (ok : Bool) (s : StreamState) :
    (tickStep ok s).sets = s.sets := by
  by_cases hb : s.hbActive <;> by_cases hc : s.isComplete <;>
    cases ok <;> simp [tickStep, hb, hc]

theorem tickStep_record (ok : Bool) (s : StreamState) :
    (tickStep ok s).record = s.record := by
  by_cases hb : s.hbActive <;> by_cases hc : s.isComplete <;>
    cases ok <;> simp [tickStep, hb, hc]

theorem tickStep_complete_mono (ok : Bool) (s : StreamState)
    (h : s.isComplete = true) : (tickStep ok s).isComplete = true := by
  rcases tickStep_of_complete ok s h with ht | ht <;> rw [ht] <;> exact h

theorem tickStep_pings_le (ok : Bool) (s : StreamState) :
    (tickStep ok s).pings ≤ s.pings + 1 := by
  by_cases hb : s.hbActive <;> by_cases hc : s.isComplete <;>
    cases ok <;> simp [tickStep, hb, hc]

theorem countTicks_ev (e : Event) (ok : Bool) (t : List StreamStep) :
    countTicks (.ev e ok :: t) = countTicks t := by
  simp [countTicks, List.countP_cons]

theorem countTicks_tick (ok : Bool) (t : List StreamStep) :
    countTicks (.tick ok :: t) = countTicks t + 1 := by
  simp [countTicks, List.countP_cons]

theorem streamRunFrom_pings_le (jid : String) (q : ScrapeQuery)
    (steps : List StreamStep) :
    ∀ s : StreamState,
      (streamRunFrom jid q s steps).pings ≤ s.pings + countTicks steps := by
  induction steps with
  | nil => intro s; simp [streamRunFrom, countTicks]
  | cons st t ih =>
    intro s
    have hfold : streamRunFrom jid q s (st :: t)
        = streamRunFrom jid q (streamStep jid q s st) t := rfl
    rw [hfold]
    cases st with
    | ev e ok =>
      have h1 := ih (streamStep jid q s (.ev e ok))
      have h2 : (streamStep jid q s (.ev e ok)).pings = s.pings :=
        evStep_pings jid q e ok s
      rw [countTicks_ev]
      omega
    | tick ok =>
      have h1 := ih (streamStep jid q s (.tick ok))
      have h2 : (streamStep jid q s (.tick ok)).pings ≤ s.pings + 1 :=
        tickStep_pings_le ok s
      rw [countTicks_tick]
      omega

theorem streamRunFrom_sets_inv (jid : String) (q : ScrapeQuery)
    (steps : List StreamStep) :
    ∀ s : StreamState,
      (s.sets = 0 ∨ (s.sets = 1 ∧ s.isComplete = true)) →
      ((streamRunFrom jid q s steps).sets = 0
        ∨ ((streamRunFrom jid q s steps).sets = 1
            ∧ (streamRunFrom jid q s steps).isComplete = true)) := by
  induction steps with
  | nil => intro s h; exact h
  | cons st t ih =>
    intro s h
    have hfold : streamRunFrom jid q s (st :: t)
        = streamRunFrom jid q (streamStep jid q s st) t := rfl
    rw [hfold]
    apply ih
    cases st with
    | ev e ok =>
      by_cases hc : s.isComplete
      · rw [streamStep, evStep_of_complete jid q e ok s hc]
        exact h
      · have hc0 : s.isComplete = false := by
          cases hcc : s.isComplete
          · rfl
          · exact absurd hcc hc
        have hs0 : s.sets = 0 := by
          rcases h with h0 | ⟨h1, h2⟩
          · exact h0
          · rw [h2] at hc0; cases hc0
        rcases evStep_sets jid q e ok s hc0 with
          ⟨ht, hsets, hcomp, hhb⟩ | ⟨ht, hsets, hrec⟩
        · exact Or.inr ⟨by rw [streamStep, hsets, hs0], by rw [streamStep]; exact hcomp⟩
        · exact Or.inl (by rw [streamStep, hsets, hs0])
    | tick ok =>
      rcases h with h0 | ⟨h1, h2⟩
      · exact Or.inl (by rw [streamStep, tickStep_sets, h0])
      · exact Or.inr ⟨by rw [streamStep, tickStep_sets, h1],
          by rw [streamStep]; exact tickStep_complete_mono ok s h2⟩

theorem evStep_write_fail (jid : String) (q : ScrapeQuery) (e : Event)
    (s : StreamState) (h : s.isComplete = false) (ht : isTerminal e = false) :
    (evStep jid q e false s).isComplete = true
    ∧ (evStep jid q e false s).record = s.record
    ∧ (evStep jid q e false s).frames = s.frames := by
  cases e with
  | business d => cases d <;> simp [evStep, h]
  | complete st bs => simp [isTerminal] at ht
  | error m => simp [isTerminal] at ht
  | other t => simp [evStep, h]

/-! Claim theorems about the streaming handler. -/

/-- C7: at most one ping frame is written per heartbeat firing (the timer
has a fixed one-second period), zero pings are written from any state in
which a terminal event or write failure has been observed
(`isComplete`), and processing a terminal event marks the stream complete
and clears the heartbeat interval. -/
theorem heartbeat_bounds :
    (∀ (jid : String) (q : ScrapeQuery) (s : StreamState)
        (steps : List StreamStep),
        (streamRunFrom jid q s steps).pings ≤ s.pings + countTicks steps)
    ∧ (∀ (jid : String) (q : ScrapeQuery) (s : StreamState)
        (steps : List StreamStep), s.isComplete = true →
        (streamRunFrom jid q s steps).pings = s.pings)
    ∧ (∀ (jid : String) (q : ScrapeQuery) (e : Event) (ok : Bool)
        (s : StreamState), s.isComplete = false → isTerminal e = true →
        (evStep jid q e ok s).isComplete = true
        ∧ (evStep jid q e ok s).hbActive = false) := by
  refine ⟨?_, ?_, ?_⟩
  · intro jid q s steps
    exact streamRunFrom_pings_le jid q steps s
  · intro jid q s steps h
    exact (streamRunFrom_frozen jid q steps s h).2.2.1
  · intro jid q e ok s h ht
    rcases evStep_sets jid q e ok s h with
      ⟨_, _, hcomp, hhb⟩ | ⟨ht2, _, _⟩
    · exact ⟨hcomp, hhb⟩
    · rw [ht] at ht2; cases ht2

/-- C7 witness: concrete instantiation — from the completed state reached
by a failed initial write, one further tick writes no ping, and a
`complete` event on a live stream clears the heartbeat interval. -/
theorem heartbeat_bounds_witness :
    (streamInit false).isComplete = true
    ∧ (streamRunFrom "j" queryRP (streamInit false)
        [StreamStep.tick true]).pings = (streamInit false).pings
    ∧ (streamInit true).isComplete = false
    ∧ isTerminal (Event.complete (some statsAB) none) = true
    ∧ (evStep "j" queryRP (Event.complete (some statsAB) none) true
        (streamInit true)).hbActive = false :=
  ⟨rfl,
    heartbeat_bounds.2.1 "j" queryRP (streamInit false)
      [StreamStep.tick true] rfl,
    rfl, rfl,
    (heartbeat_bounds.2.2 "j" queryRP (Event.complete (some statsAB) none)
      true (streamInit true) rfl rfl).2⟩

/-- C10: if an SSE write fails on a non-terminal event while the job
record is still `running`, the handler marks the stream complete without
touching the record, and no continuation of the run ever changes the
record (it stays `running`) or writes further frames. -/
theorem write_failure_freezes_record (jid : String) (q : ScrapeQuery)
    (s : StreamState) (e : Event) (steps : List StreamStep)
    (h : s.isComplete = false) (hrun : s.record.status = .running)
    (ht : isTerminal e = false) :
    (evStep jid q e false s).isComplete = true
    ∧ (evStep jid q e false s).record = s.record
    ∧ (streamRunFrom jid q (evStep jid q e false s) steps).record = s.record
    ∧ (streamRunFrom jid q (evStep jid q e false s) steps).record.status
      = .running
    ∧ (streamRunFrom jid q (evStep jid q e false s) steps).frames
      = s.frames := by
  obtain ⟨h1, h2, h3⟩ := evStep_write_fail jid q e s h ht
  obtain ⟨g1, g2, g3, g4, g5⟩ :=
    streamRunFrom_frozen jid q steps (evStep jid q e false s) h1
  refine ⟨h1, h2, g2.trans h2, ?_, g4.trans h3⟩
  rw [g2.trans h2]
  exact hrun

/-- C10 witness: concrete instantiation — a failed write on a `progress`
frame freezes the record at `running` through a subsequent tick and a
late `complete` event. -/
theorem write_failure_freezes_record_witness :
    (streamInit true).isComplete = false
    ∧ (streamInit true).record.status = JobStatus.running
    ∧ isTerminal (Event.other "progress") = false
    ∧ (streamRunFrom "j" queryRP
        (evStep "j" queryRP (Event.other "progress") false (streamInit true))
        [StreamStep.tick true,
          StreamStep.ev (Event.complete (some statsAB) none) true]).record.status
      = JobStatus.running :=
  ⟨rfl, rfl, rfl,
    (write_failure_freezes_record "j" queryRP (streamInit true)
      (Event.other "progress")
      [StreamStep.tick true,
        StreamStep.ev (Event.complete (some statsAB) none) true]
      rfl rfl rfl).2.2.2.1⟩

/-! Claim theorems about the registry, the synchronous route and the
webhook task. -/

/-- C3 counterexample: in the webhook path, after a successful scrape the
record is first set to `completed`, and a rejected success-callback
delivery sets it a second time, to `error`: two terminal `jobStore.set`
calls on the same job, with the terminal `completed` record overwritten. -/
theorem registry_double_transition_cex :
    (scrape "restaurant" "paris" 4 eventsOk).success = true
    ∧ (webhookRun "job-3" queryRP eventsOk
        (FetchOutcome.fail "network down") FetchOutcome.ok).sets = 2
    ∧ (webhookRun "job-3" queryRP eventsOk
        (FetchOutcome.fail "network down") FetchOutcome.ok).record.status
      = JobStatus.error
    ∧ (webhookRun "job-3" queryRP eventsOk FetchOutcome.ok
        FetchOutcome.ok).record.status = JobStatus.completed :=
  ⟨rfl, rfl, rfl, rfl⟩

/-- C3 (amended): in the streaming route the registry record transitions
at most once from `running` to a terminal state for any interleaving of
events and heartbeat ticks, including repeated or conflicting terminal
events; in the webhook path the record receives exactly one terminal set
when delivery succeeds, but is set twice — `completed` then overwritten
to `error` — when the success-callback delivery fails. -/
theorem registry_terminal_transitions :
    (∀ (jid : String) (q : ScrapeQuery) (jobWriteOk : Bool)
        (steps : List StreamStep),
        (streamRun jid q jobWriteOk steps).sets ≤ 1)
    ∧ (∀ (jid : String) (q : ScrapeQuery) (result : ScraperResult)
        (d2 : FetchOutcome),
        (webhookTask jid q result .ok d2).sets = 1
        ∧ (webhookTask jid q result .ok d2).record.status = .completed)
    ∧ (∀ (jid : String) (q : ScrapeQuery) (result : ScraperResult)
        (m : String) (d2 : FetchOutcome),
        (webhookTask jid q result (.fail m) d2).sets = 2
        ∧ (webhookTask jid q result (.fail m) d2).record.status = .error) := by
  refine ⟨?_, ?_, ?_⟩
  · intro jid q jobWriteOk steps
    have h := streamRunFrom_sets_inv jid q steps (streamInit jobWriteOk)
      (Or.inl rfl)
    have h2 : (streamRun jid q jobWriteOk steps).sets
        = (streamRunFrom jid q (streamInit jobWriteOk) steps).sets := rfl
    rcases h with h | ⟨h, _⟩ <;> omega
  · intro jid q result d2
    exact ⟨rfl, rfl⟩
  · intro jid q result m d2
    exact ⟨rfl, rfl⟩

/-- C1 counterexample: a webhook job whose scrape finishes successfully
(`success = true`), but whose outbound callback POST is rejected, ends
with a registry record of status `error` and no stored result: the
delivery failure is not merely logged, it overwrites the `completed`
record. -/
theorem webhook_delivery_failure_cex :
    (scrape "restaurant" "paris" 4 eventsOk).success = true
    ∧ (webhookRun "job-1" queryRP eventsOk
        (FetchOutcome.fail "fetch failed") FetchOutcome.ok).record.status
      = JobStatus.error
    ∧ (webhookRun "job-1" queryRP eventsOk
        (FetchOutcome.fail "fetch failed") FetchOutcome.ok).record.result
      = none :=
  ⟨rfl, rfl, rfl⟩

/-- C1 (amended): after a successful scrape the webhook task stores a
`completed` record; if the success-callback delivery then fails, the
`catch` overwrites the record with status `error` carrying the delivery
error message and attempts a failure callback — only a rejection of that
second callback is merely logged (the record is independent of the second
delivery's outcome). -/
theorem webhook_delivery_outcomes (jid : String) (q : ScrapeQuery)
    (result : ScraperResult) (m m2 : String) (d2 : FetchOutcome) :
    (webhookTask jid q result .ok d2).record
      = { status := .completed
          result := some
            { job_id := jid
              query := q
              stats := result.stats
              businesses := result.businesses }
          error := none }
    ∧ (webhookTask jid q result (.fail m) d2).record
      = { status := .error, result := none, error := some m }
    ∧ (webhookTask jid q result (.fail m) d2).attempts
      = [{ success := true
           job_id := jid
           error := none
           businesses := some result.businesses },
         { success := false, job_id := jid, error := some m,
           businesses := none }]
    ∧ (webhookTask jid q result (.fail m) .ok).loggedOnly = false
    ∧ (webhookTask jid q result (.fail m) (.fail m2)).loggedOnly = true :=
  ⟨rfl, rfl, rfl, rfl, rfl⟩

/-- C2 counterexample: on the worker event sequence `[error("boom")]` the
`POST /scrape` handler responds 200 with `success: true` and sets the
job's record to `completed` — not a 5xx and not an `error` record —
because `scraper.scrape` resolves normally with the error captured in its
result value and the handler never reads `result.success` or
`result.error`. -/
theorem post_scrape_error_event_cex :
    ([Event.error "boom"].any isErrorEvent) = true
    ∧ (postScrapeHandler "job-2" queryRP [Event.error "boom"]).1.httpStatus
      = 200
    ∧ (postScrapeHandler "job-2" queryRP [Event.error "boom"]).1.success
      = true
    ∧ (postScrapeHandler "job-2" queryRP [Event.error "boom"]).2.status
      = JobStatus.completed
    ∧ (postScrapeHandler "job-2" queryRP [Event.error "boom"]).2.error
      = none :=
  ⟨rfl, rfl, rfl, rfl, rfl⟩

/-- C2 (amended): for every worker event sequence, the `POST /scrape`
handler responds 200 with `success: true`, an empty error field and a
`completed` registry record — worker error events never produce a 5xx; a
5xx `{error}` with an `error` record occurs only when the awaited scrape
promise itself rejects, which the handler continuation maps to the 500
response. -/
theorem post_scrape_no_5xx_on_worker_error (jid : String) (q : ScrapeQuery)
    (events : List Event) (m : String) :
    (postScrapeHandler jid q events).1.httpStatus = 200
    ∧ (postScrapeHandler jid q events).1.success = true
    ∧ (postScrapeHandler jid q events).1.error = none
    ∧ (postScrapeHandler jid q events).2.status = .completed
    ∧ postScrapeAfter jid q (.error m)
      = ({ httpStatus := 500
           success := false
           error := some m
           businesses := none
           total_businesses := none },
         { status := .error, result := none, error := some m }) :=
  ⟨rfl, rfl, rfl, rfl, rfl⟩

/-- C8: with valid activity and city strings, a `grid_size` of 0 or 56 is
rejected by validation (400, no worker spawned), every integer in the
inclusive range 1..55 is accepted, and an omitted `grid_size` defaults
to 4. -/
theorem grid_size_validation (a c : String) (ha : 2 ≤ a.length)
    (hc : 2 ≤ c.length) :
    routeGate { activity := some a, city := some c, grid_size := some 0 }
      = .badRequest
    ∧ routeGate { activity := some a, city := some c, grid_size := some 56 }
      = .badRequest
    ∧ (∀ n : Int, 1 ≤ n → n ≤ 55 →
        routeGate { activity := some a, city := some c, grid_size := some n }
          = .spawned ⟨a, c, n⟩)
    ∧ routeGate { activity := some a, city := some c, grid_size := none }
      = .spawned ⟨a, c, 4⟩ := by
  refine ⟨?_, ?_, ?_, ?_⟩
  · simp [routeGate, safeParseQuery, zGridSize, ha, hc]
  · simp [routeGate, safeParseQuery, zGridSize, ha, hc]
  · intro n h1 h2
    simp [routeGate, safeParseQuery, zGridSize, ha, hc, h1, h2]
  · simp [routeGate, safeParseQuery, zGridSize, ha, hc]

/-- C8 witness: concrete instantiation at activity "restaurant", city
"paris", and grid sizes 0, 7 and omitted. -/
theorem grid_size_validation_witness :
    2 ≤ "restaurant".length
    ∧ 2 ≤ "paris".length
    ∧ (1 : Int) ≤ 7 ∧ (7 : Int) ≤ 55
    ∧ routeGate ⟨some "restaurant", some "paris", some 0⟩
      = RouteOutcome.badRequest
    ∧ routeGate ⟨some "restaurant", some "paris", some 7⟩
      = RouteOutcome.spawned ⟨"restaurant", "paris", 7⟩
    ∧ routeGate ⟨some "restaurant", some "paris", none⟩
      = RouteOutcome.spawned ⟨"restaurant", "paris", 4⟩ := by
  refine ⟨by decide, by decide, by decide, by decide, ?_, ?_, ?_⟩
  · exact (grid_size_validation "restaurant" "paris" (by decide)
      (by decide)).1
  · exact (grid_size_validation "restaurant" "paris" (by decide)
      (by decide)).2.2.1 7 (by decide) (by decide)
  · exact (grid_size_validation "restaurant" "paris" (by decide)
      (by decide)).2.2.2

end GmbScraper
